import Mathlib

/-!
Verification of the CineMorph request composer, generation/refinement
clients and pipeline state machine.

The service layer (`geminiService`) is embedded as pure functions: the
external multimodal backend is a parameter (`GenRequest → Response`,
`RefineCall → Response`), `File` carries its MIME type together with the
base64 payload that `fileToBase64` would produce (the `FileReader`
round-trip is abstracted away), and thrown `Error` values become an
explicit `GenError` inductive whose `genErrorMessage` function records the
exact message strings of the source.  JavaScript string truthiness
(`null`/`undefined`/`""` all falsy) is modelled by explicit `≠ ""` and
`Option` checks mirroring each source condition.
-/

namespace Cinemorph

/-- An uploaded image: `mimeType` models the DOM `File.type` field and
`data` the base64 payload that `fileToBase64` resolves to. -/
structure InputFile where
  mimeType : String
  data : String
deriving DecidableEq, Repr

/-- `fileToBase64` from geminiService: reads the file and strips the data
URL prefix.  The `FileReader` round-trip is abstracted: the model file
directly carries the resulting base64 string. -/
def fileToBase64 (f : InputFile) : String := f.data

/-- Truthiness of a `string | null | undefined` JavaScript value. -/
def strOptTruthy : Option String → Bool
  | some s => s != ""
  | none => false

/-- JavaScript `String.prototype.trim`, implemented structurally on the
character list (whitespace stripped from both ends). -/
def jsTrim (s : String) : String :=
  ⟨((s.data.dropWhile Char.isWhitespace).reverse.dropWhile Char.isWhitespace).reverse⟩

/-- Whether `pat` occurs at the start of `xs`. -/
def listStartsWith : List Char → List Char → Bool
  | _, [] => true
  | [], _ :: _ => false
  | a :: as, b :: bs => a == b && listStartsWith as bs

/-- Whether `pat` occurs anywhere inside `xs`. -/
def listHasSub (xs pat : List Char) : Bool :=
  if listStartsWith xs pat then true
  else
    match xs with
    | [] => false
    | _ :: t => listHasSub t pat

/-- JavaScript `String.prototype.includes`. -/
def strContains (s pat : String) : Bool := listHasSub s.data pat.data

/-- JavaScript `String.prototype.split` with a single-character
separator, implemented structurally. -/
def splitOnChar (c : Char) : List Char → List (List Char)
  | [] => [[]]
  | a :: t =>
    let r := splitOnChar c t
    if a == c then [] :: r
    else
      match r with
      | [] => [[a]]
      | h :: t2 => (a :: h) :: t2

/-- An `inlineData` media payload of a request or response part. -/
structure MediaData where
  mimeType : String
  data : String
deriving DecidableEq, Repr

/-- One content part: `{ inlineData?: ..., text?: ... }`. -/
structure ContentPart where
  inlineData : Option MediaData := none
  text : Option String := none
deriving DecidableEq, Repr

/-- `{ inlineData: { mimeType: f.type, data: base64 } }`. -/
def imagePart (f : InputFile) : ContentPart :=
  { inlineData := some { mimeType := f.mimeType, data := fileToBase64 f }, text := none }

/-- `{ text: t }`. -/
def textContentPart (t : String) : ContentPart :=
  { inlineData := none, text := some t }

/-- The four generation scenarios of `generateFinalPoster` (spec names:
Identity Transfer, Generative Placement, Guided Reimagination, Pure
Synthesis; code comments: scenarios 1-4). -/
inductive Scenario where
  | identityTransfer
  | generativePlacement
  | guidedReimagination
  | pureSynthesis
deriving DecidableEq, Repr

/-- Errors thrown by the service layer.  The source throws `Error`
objects; `genErrorMessage` below gives each one its exact source message
string. -/
inductive GenError where
  | invalidRequest
  | modelRefusal (detail : String)
  | noImageData
  | refinementFailed
  | backendError (message : String)
deriving DecidableEq, Repr

/-- The `error.message` string of each thrown error, verbatim from the
source. -/
def genErrorMessage : GenError → String
  | .invalidRequest =>
      "Invalid Input Combination. Please provide at least an Actor, a Reference, or a Prompt."
  | .modelRefusal d => "Model Refusal: " ++ d
  | .noImageData => "No image data returned."
  | .refinementFailed => "Refinement failed."
  | .backendError m => m

/-- Step 2 of `generateFinalPoster` (part_001 lines 104-127): the format
resolver, returning `(aspectRatio, formatInstruction)`. -/
def resolveFormat (outputType landingPosition : String) : String × String :=
  if outputType = "ad_stories" then
    ("9:16", "FORMAT: SOCIAL MEDIA STORY (9:16). Vertical Composition.")
  else if outputType = "thumbnail" then
    ("16:9", "FORMAT: YOUTUBE THUMBNAIL (16:9). High Contrast, Rule of Thirds.")
  else if outputType = "landing_hero" then
    ("16:9",
      "FORMAT: CINEMATIC WEB HEADER (16:9)." ++
        (if landingPosition = "left" then
          " LAYOUT: Subject Anchored LEFT. Right side: Negative space."
        else if landingPosition = "right" then
          " LAYOUT: Subject Anchored RIGHT. Left side: Negative space."
        else " LAYOUT: Center Composition."))
  else if outputType = "landing_mobile" then
    ("9:16",
      "FORMAT: MOBILE LANDING PAGE (Vertical 9:16)." ++
        (if landingPosition = "top" then
          " LAYOUT: Subject in TOP half. Clean negative space at BOTTOM."
        else if landingPosition = "bottom" then
          " LAYOUT: Subject in BOTTOM half. Clean negative space at TOP."
        else ""))
  else
    ("1:1", "FORMAT: SQUARE AD (1:1).")

/-- Step 3 of `generateFinalPoster` (part_001 lines 129-135): the text
overlay instruction.  The first guard is the source condition
`customText && customText.trim().length > 0`. -/
def textOverlayInstruction (preserveText : Bool) (customText : String) : String :=
  if customText ≠ "" ∧ (jsTrim customText).length > 0 then
    "TEXT RENDER: Render the title \"" ++ customText ++
      "\" in the image with cinematic typography fitting the scene."
  else if ¬preserveText then
    "TEXT: No text. Clean image."
  else
    ""

/-- Scenario 1 system prompt (actor + reference). -/
def scenario1Prompt (formatInstruction : String) (analysisContext : Option String)
    (creativePrompt textInstruction : String) : String :=
  "\n      ROLE: Senior VFX Compositor.\n      TASK: Face Replacement & Relighting.\n      "
    ++ formatInstruction
    ++ "\n      \n      INPUTS:\n      - IMAGE_1 (Base Plate): Master Reference.\n      - IMAGE_2 (Source): User Identity.\n      "
    ++ (if strOptTruthy analysisContext then "- TECH SPECS: " ++ analysisContext.getD "" else "")
    ++ "\n      "
    ++ (if creativePrompt ≠ "" then "- ADDITIONAL INSTRUCTION: " ++ creativePrompt else "")
    ++ "\n\n      INSTRUCTIONS:\n      1. Replace the face in IMAGE_1 with the face from IMAGE_2.\n      2. PRESERVE IMAGE_1\u0027s lighting, shadows, and color grading exactly.\n      3. Adapt IMAGE_2\u0027s head geometry to match IMAGE_1\u0027s angle.\n      4. "
    ++ textInstruction ++ "\n    "

/-- Scenario 2 system prompt (actor only). -/
def scenario2Prompt (formatInstruction creativePrompt textInstruction : String) : String :=
  "\n      ROLE: Movie Poster Concept Artist.\n      TASK: Create a scene featuring the Actor.\n      "
    ++ formatInstruction
    ++ "\n      \n      INPUTS:\n      - IMAGE_1: The Main Actor.\n      - SCENE DESCRIPTION: \""
    ++ creativePrompt
    ++ "\"\n\n      INSTRUCTIONS:\n      1. GENERATE a high-end cinematic environment based on the SCENE DESCRIPTION.\n      2. PLACE the actor from IMAGE_1 into this scene.\n      3. Match lighting and reflections on the actor to the new environment.\n      4. "
    ++ textInstruction ++ "\n    "

/-- Scenario 3 system prompt (reference only). -/
def scenario3Prompt (formatInstruction creativePrompt textInstruction : String) : String :=
  "\n      ROLE: Creative Director / Art Director.\n      TASK: Reimagine the Reference Image.\n      "
    ++ formatInstruction
    ++ "\n      \n      INPUTS:\n      - IMAGE_1: Visual Reference (Composition/Lighting Base).\n      - CREATIVE DIRECTION: \""
    ++ creativePrompt
    ++ "\"\n\n      INSTRUCTIONS:\n      1. Generate a NEW image that respects the composition and lighting structure of IMAGE_1.\n      2. APPLY the CREATIVE DIRECTION to transform the content, style, or subject matter.\n      3. If the prompt asks to change the person/character, generate a new fictional character fitting the description.\n      4. Maintain the professional \"movie poster\" aesthetic of the reference.\n      5. "
    ++ textInstruction ++ "\n    "

/-- Scenario 4 system prompt (prompt only). -/
def scenario4Prompt (formatInstruction creativePrompt textInstruction : String) : String :=
  "\n      ROLE: AI Image Generator.\n      TASK: Create a Movie Poster from scratch.\n      "
    ++ formatInstruction
    ++ "\n      \n      PROMPT: \""
    ++ creativePrompt
    ++ "\"\n\n      INSTRUCTIONS:\n      1. Generate a Photorealistic, 8k resolution cinematic image based on the PROMPT.\n      2. Ensure high dynamic range and dramatic lighting.\n      3. "
    ++ textInstruction ++ "\n    "

/-- The composed backend request of `generateFinalPoster`: the ordered
content parts, the aspect ratio of `imageConfig`, and (for the
formalisation) which scenario branch produced it. -/
structure GenRequest where
  parts : List ContentPart
  aspectRatio : String
  scenario : Scenario
deriving DecidableEq, Repr

/-- Steps 1-4 of `generateFinalPoster` (part_001 lines 90-223): input
preparation, format resolution, text instruction, scenario dispatch and
content-part assembly.  The scenario guards mirror the source truthiness
chain (`actorFile && actorBase64 && referenceFile && referenceBase64`,
etc.); a present file whose base64 payload is empty is falsy, exactly as
in the source. -/
def buildGenerateRequest (actorFile referenceFile : Option InputFile)
    (outputType landingPosition : String) (analysisContext : Option String)
    (preserveText : Bool) (customText creativePrompt : String) :
    Except GenError GenRequest :=
  let fmt := resolveFormat outputType landingPosition
  let aspectRatio := fmt.1
  let formatInstruction := fmt.2
  let textInstruction := textOverlayInstruction preserveText customText
  match actorFile, referenceFile with
  | some actor, some reference =>
    if fileToBase64 actor ≠ "" ∧ fileToBase64 reference ≠ "" then
      .ok { parts := [imagePart reference, imagePart actor,
                      textContentPart (scenario1Prompt formatInstruction analysisContext
                        creativePrompt textInstruction)],
            aspectRatio := aspectRatio, scenario := .identityTransfer }
    else .error .invalidRequest
  | some actor, none =>
    if fileToBase64 actor ≠ "" then
      .ok { parts := [imagePart actor,
                      textContentPart (scenario2Prompt formatInstruction creativePrompt
                        textInstruction)],
            aspectRatio := aspectRatio, scenario := .generativePlacement }
    else .error .invalidRequest
  | none, some reference =>
    if fileToBase64 reference ≠ "" then
      .ok { parts := [imagePart reference,
                      textContentPart (scenario3Prompt formatInstruction creativePrompt
                        textInstruction)],
            aspectRatio := aspectRatio, scenario := .guidedReimagination }
    else .error .invalidRequest
  | none, none =>
    if creativePrompt ≠ "" then
      .ok { parts := [textContentPart (scenario4Prompt formatInstruction creativePrompt
                        textInstruction)],
            aspectRatio := aspectRatio, scenario := .pureSynthesis }
    else .error .invalidRequest

/-- `candidates[0].content?.parts` holder. -/
structure RespContent where
  parts : Option (List ContentPart)
deriving DecidableEq, Repr

/-- One response candidate. -/
structure RespCandidate where
  content : Option RespContent
deriving DecidableEq, Repr

/-- A backend response.  The source checks `candidates &&
candidates.length > 0`; an absent candidates field behaves exactly like an
empty list, so both are modelled as `[]`. -/
structure Response where
  candidates : List RespCandidate
deriving DecidableEq, Repr

/-- `part.inlineData && part.inlineData.data` — the part carries a
non-empty image payload. -/
def partHasImage (p : ContentPart) : Bool :=
  match p.inlineData with
  | some d => d.data != ""
  | none => false

/-- `p.text` is truthy — the part carries a non-empty text string. -/
def partHasText (p : ContentPart) : Bool :=
  match p.text with
  | some s => s != ""
  | none => false

/-- The response-part loop: data of the first part with truthy
`inlineData.data`. -/
def firstImageData : List ContentPart → Option String
  | [] => none
  | p :: rest =>
    match p.inlineData with
    | some d => if d.data ≠ "" then some d.data else firstImageData rest
    | none => firstImageData rest

/-- `parts.find(p => p.text)` followed by reading `.text`: the text of the
first part with truthy text. -/
def findTextValue : List ContentPart → Option String
  | [] => none
  | p :: rest =>
    match p.text with
    | some s => if s ≠ "" then some s else findTextValue rest
    | none => findTextValue rest

/-- Response interpretation of `generateFinalPoster` (part_001 lines
239-253): first image part wins and is re-labelled `image/png`; otherwise
a truthy text part raises `Model Refusal`; otherwise
`No image data returned.`. -/
def parseGenerateResponse (r : Response) : Except GenError String :=
  match r.candidates with
  | [] => .error .noImageData
  | c :: _ =>
    match c.content with
    | none => .error .noImageData
    | some content =>
      match content.parts with
      | none => .error .noImageData
      | some ps =>
        match firstImageData ps with
        | some d => .ok ("data:image/png;base64," ++ d)
        | none =>
          match findTextValue ps with
          | some t => .error (.modelRefusal t)
          | none => .error .noImageData

/-- `generateFinalPoster`, with the backend as an explicit parameter: the
composed request is sent only when composition succeeded; an
`invalidRequest` failure happens before the backend is ever consulted. -/
def generateFinalPoster (actorFile referenceFile : Option InputFile)
    (outputType landingPosition : String) (analysisContext : Option String)
    (preserveText : Bool) (customText creativePrompt : String)
    (backend : GenRequest → Response) : Except GenError String :=
  match buildGenerateRequest actorFile referenceFile outputType landingPosition
      analysisContext preserveText customText creativePrompt with
  | .error e => .error e
  | .ok req => parseGenerateResponse (backend req)

/-- `refinePoster` aspect-ratio derivation (part_001 lines 271-273): from
`outputType` alone. -/
def refineAspectRatio (outputType : String) : String :=
  if outputType = "ad_stories" ∨ outputType = "landing_mobile" then "9:16"
  else if outputType = "thumbnail" ∨ outputType = "landing_hero" then "16:9"
  else "1:1"

/-- The source takes index 1 of splitting `currentImageBase64` on a
comma.  When the string has no comma the
JavaScript index is `undefined`, which is falsy like `""`; both are
modelled as `""`. -/
def dataAfterComma (s : String) : String :=
  match (splitOnChar ',' s.data).drop 1 with
  | [] => ""
  | x :: _ => ⟨x⟩

/-- The refinement instruction text (part_001 lines 275-281). -/
def refineInstruction (refinementPrompt aspectRatio : String) : String :=
  "\n    ROLE: Senior Photo Retoucher.\n    TASK: Detailed Image Refinement.\n    USER REQUEST: \""
    ++ refinementPrompt
    ++ "\"\n    INSTRUCTIONS: Fix the image according to the request. Keep original quality. Output 4K.\n    Output Ratio: "
    ++ aspectRatio ++ ".\n  "

/-- The backend call composed by `refinePoster`. -/
structure RefineCall where
  parts : List ContentPart
  aspectRatio : String
deriving DecidableEq, Repr

/-- `refinePoster` request assembly (part_001 lines 263-295): the prior
artifact is always sent with mimeType "image/png", followed by the
instruction text. -/
def buildRefineRequest (currentImageBase64 refinementPrompt outputType : String) :
    RefineCall :=
  let aspectRatio := refineAspectRatio outputType
  { parts := [{ inlineData := some { mimeType := "image/png",
                                     data := dataAfterComma currentImageBase64 },
                text := none },
              textContentPart (refineInstruction refinementPrompt aspectRatio)],
    aspectRatio := aspectRatio }

/-- Response interpretation of `refinePoster` (part_001 lines 297-308): no
refusal branch; any miss raises `Refinement failed.`. -/
def parseRefineResponse (r : Response) : Except GenError String :=
  match r.candidates with
  | [] => .error .refinementFailed
  | c :: _ =>
    match c.content with
    | none => .error .refinementFailed
    | some content =>
      match content.parts with
      | none => .error .refinementFailed
      | some ps =>
        match firstImageData ps with
        | some d => .ok ("data:image/png;base64," ++ d)
        | none => .error .refinementFailed

/-- `refinePoster`, with the backend as an explicit parameter. -/
def refinePoster (currentImageBase64 refinementPrompt outputType : String)
    (backend : RefineCall → Response) : Except GenError String :=
  parseRefineResponse
    (backend (buildRefineRequest currentImageBase64 refinementPrompt outputType))

/-!
The App component (src/App.tsx).  Its state is the React state relevant to
the pipeline claims; file previews, output-spec configuration and the chat
assistant carry no pipeline logic and are omitted.  Each handler
(`handleAnalyze`, `handleGenerate`, `handleRefine`) performs a sequence of
state updates with `await` suspension points in between, so every
intermediate state is observable; a handler is therefore embedded as the
list of successive states it passes through (its trace), with the backend
outcome supplied as an event parameter.  Per the concurrency model (one
operation in flight at a time), events fire from quiescent states.
-/

/-- Status of a pipeline stage. -/
inductive StepStatus where
  | pending
  | processing
  | completed
  | error
deriving DecidableEq, Repr

/-- One `ProcessingStep` record of `types.ts`. -/
structure ProcessingStep where
  id : String
  name : String
  status : StepStatus
  details : Option String
deriving DecidableEq, Repr

/-- The initial five-stage list (App.tsx lines 56-62). -/
def initialSteps : List ProcessingStep :=
  [{ id := "1", name := "Segmentation Engine", status := .pending,
     details := some "Waiting for inputs" },
   { id := "2", name := "Hero Replacement", status := .pending, details := none },
   { id := "3", name := "Relighting & Texture", status := .pending, details := none },
   { id := "4", name := "Identity Blocker", status := .pending, details := none },
   { id := "5", name := "Final 4K Render", status := .pending, details := none }]

/-- `updateStep` (App.tsx lines 148-150).  The JS spread
`{ ...s, status, details }` overwrites `details` even when the argument is
absent, hence the `Option` parameter replaces the field outright. -/
def updateStep (steps : List ProcessingStep) (id : String) (status : StepStatus)
    (details : Option String) : List ProcessingStep :=
  steps.map fun s => if s.id = id then { s with status := status, details := details } else s

/-- The step reset at the start of `handleGenerate` (App.tsx lines
159-162): every stage becomes `pending` with cleared details, except stage
"1" which is kept whole while `analysisText` is truthy. -/
def resetSteps (steps : List ProcessingStep) (analysisText : Option String) :
    List ProcessingStep :=
  steps.map fun s =>
    if s.id = "1" ∧ strOptTruthy analysisText then s
    else { s with status := .pending, details := none }

/-- The App state relevant to the pipeline claims. -/
structure AppState where
  apiKeySet : Bool
  actorFile : Bool
  refFile : Bool
  analysisText : Option String
  generatedImage : Option String
  refinePrompt : String
  isProcessing : Bool
  isAnalyzing : Bool
  isRefining : Bool
  steps : List ProcessingStep
deriving DecidableEq, Repr

/-- The initial App state (App.tsx lines 34-66). -/
def initialState : AppState :=
  { apiKeySet := false, actorFile := false, refFile := false, analysisText := none,
    generatedImage := none, refinePrompt := "", isProcessing := false,
    isAnalyzing := false, isRefining := false, steps := initialSteps }

/-- Trace of `handleAnalyze` (App.tsx lines 131-146), given the outcome of
`analyzeImageStructure` (success text, or a rejected promise). -/
def analyzeTrace (s : AppState) (result : Except Unit String) : List AppState :=
  if !s.apiKeySet then []
  else
    let s1 := { s with isAnalyzing := true }
    let s2 := { s1 with analysisText := none }
    match result with
    | .ok text =>
      let s3 := { s2 with analysisText := some text }
      let s4 := { s3 with
        steps := updateStep s3.steps "1" .completed (some "Lighting topology mapped") }
      let s5 := { s4 with isAnalyzing := false }
      [s1, s2, s3, s4, s5]
    | .error _ =>
      let s3 := { s2 with
        steps := updateStep s2.steps "1" .completed (some "Analysis skipped (auto-mode)") }
      let s4 := { s3 with isAnalyzing := false }
      [s1, s2, s3, s4]

/-- The part of the `handleGenerate` trace after stage 1 has been settled
(App.tsx lines 168-215): stages 2-4 are marched to `completed`, stage 5 is
set `processing`, and the backend outcome decides success, key-refresh, or
plain error. -/
def generateFinishTrace (s4 : AppState) (result : Except GenError String)
    (aiStudio : Bool) : List AppState :=
  let s5 := { s4 with
    steps := updateStep s4.steps "2" .processing (some "Skeleton mapping & Pose transfer...") }
  let s6 := { s5 with steps := updateStep s5.steps "2" .completed none }
  let s7 := { s6 with
    steps := updateStep s6.steps "3" .processing (some "Raytraced Shadow & Skin SSS...") }
  let s8 := { s7 with steps := updateStep s7.steps "3" .completed none }
  let s9 := { s8 with
    steps := updateStep s8.steps "4" .processing (some "Compositing Layout & Breathing Room...") }
  let s10 := { s9 with steps := updateStep s9.steps "4" .completed none }
  let s11 := { s10 with
    steps := updateStep s10.steps "5" .processing (some "Final 4K Texture Grading...") }
  let head := [s5, s6, s7, s8, s9, s10, s11]
  match result with
  | .ok url =>
    let s12 := { s11 with generatedImage := some url }
    let s13 := { s12 with steps := updateStep s12.steps "5" .completed (some "Render finished") }
    let s14 := { s13 with isProcessing := false }
    head ++ [s12, s13, s14]
  | .error e =>
    let msg := genErrorMessage e
    if strContains msg "Requested entity was not found" && aiStudio then
      let sA := { s11 with apiKeySet := false }
      let sB := { sA with apiKeySet := true }
      let sC := { sB with
        steps := updateStep sB.steps "5" .error
          (some "API Key refreshed. Please click Generate again.") }
      let sD := { sC with isProcessing := false }
      head ++ [sA, sB, sC, sD]
    else
      let displayMsg :=
        if msg.length > 50 then "Generation failed: Check console for details" else msg
      let sC := { s11 with steps := updateStep s11.steps "5" .error (some displayMsg) }
      let sD := { sC with isProcessing := false }
      head ++ [sC, sD]

/-- Trace of `handleGenerate` (App.tsx lines 152-216), given the outcome
of `generateFinalPoster` and whether the AI Studio runtime is present (the
key-refresh branch). -/
def generateTrace (s : AppState) (result : Except GenError String) (aiStudio : Bool) :
    List AppState :=
  if !s.actorFile || !s.refFile || !s.apiKeySet then []
  else
    let s1 := { s with isProcessing := true }
    let s2 := { s1 with generatedImage := none }
    let s3 := { s2 with steps := resetSteps s2.steps s2.analysisText }
    if strOptTruthy s3.analysisText then
      [s1, s2, s3] ++ generateFinishTrace s3 result aiStudio
    else
      let s4 := { s3 with
        steps := updateStep s3.steps "1" .completed (some "Using fast segmentation") }
      [s1, s2, s3, s4] ++ generateFinishTrace s4 result aiStudio

/-- Trace of `handleRefine` (App.tsx lines 218-235), given the outcome of
`refinePoster`. -/
def refineTrace (s : AppState) (result : Except GenError String) : List AppState :=
  if s.generatedImage.isNone || jsTrim s.refinePrompt == "" || s.isRefining then []
  else
    let s1 := { s with isRefining := true }
    let s2 := { s1 with steps := updateStep s1.steps "5" .processing (some "Applying Magic Fix...") }
    match result with
    | .ok url =>
      let s3 := { s2 with generatedImage := some url }
      let s4 := { s3 with refinePrompt := "" }
      let s5 := { s4 with
        steps := updateStep s4.steps "5" .completed (some "Refinement applied successfully") }
      let s6 := { s5 with isRefining := false }
      [s1, s2, s3, s4, s5, s6]
    | .error _ =>
      let s3 := { s2 with
        steps := updateStep s2.steps "5" .error (some "Refinement failed. Try again.") }
      let s4 := { s3 with isRefining := false }
      [s1, s2, s3, s4]

/-- The user/system events driving the App, each carrying the outcome of
any backend call it performs. -/
inductive Event where
  | setApiKey : Event
  | uploadActor : Event
  | uploadRef (analysis : Except Unit String) : Event
  | editRefinePrompt (p : String) : Event
  | generate (result : Except GenError String) (aiStudio : Bool) : Event
  | refine (result : Except GenError String) : Event

/-- The trace of states an event drives the App through (uploading a
reference file triggers `handleAnalyze`, App.tsx line 126). -/
def eventTrace (s : AppState) : Event → List AppState
  | .setApiKey => [{ s with apiKeySet := true }]
  | .uploadActor => [{ s with actorFile := true }]
  | .uploadRef res =>
    let s1 := { s with refFile := true }
    s1 :: analyzeTrace s1 res
  | .editRefinePrompt p => [{ s with refinePrompt := p }]
  | .generate res aiStudio => generateTrace s res aiStudio
  | .refine res => refineTrace s res

/-- The state the App settles in after an event (a guard-blocked handler
leaves the state unchanged). -/
def eventRun (s : AppState) (e : Event) : AppState := (eventTrace s e).getLastD s

/-- Quiescent reachable states: those the App settles in between events. -/
inductive ReachableQ : AppState → Prop where
  | init : ReachableQ initialState
  | step (s : AppState) (e : Event) (h : ReachableQ s) : ReachableQ (eventRun s e)

/-- All reachable states, the intermediate states of an in-flight handler
included. -/
def Reachable (x : AppState) : Prop :=
  ReachableQ x ∨ ∃ s e, ReachableQ s ∧ x ∈ eventTrace s e

/-- The status of the stage at position `i` (an out-of-range position
reads as `pending`). -/
def statusAt (steps : List ProcessingStep) (i : Nat) : StepStatus :=
  match steps.get? i with
  | some st => st.status
  | none => .pending

/-- The claim-level monotonicity property: no stage is `processing` while
an earlier stage is not `completed`. -/
def MonotoneSteps (steps : List ProcessingStep) : Prop :=
  ∀ i j : Nat, i < j → statusAt steps j = .processing → statusAt steps i = .completed

/-- The steps list keeps its five-stage shape with ids "1".."5". -/
def stepsWF (steps : List ProcessingStep) : Prop :=
  ∃ a b c d e, steps = [a, b, c, d, e] ∧
    a.id = "1" ∧ b.id = "2" ∧ c.id = "3" ∧ d.id = "4" ∧ e.id = "5"

/-- Monotonicity, expressed on the five stage statuses. -/
def Mono5 (q1 q2 q3 q4 q5 : StepStatus) : Prop :=
  (q2 = .processing → q1 = .completed) ∧
  (q3 = .processing → q1 = .completed ∧ q2 = .completed) ∧
  (q4 = .processing → q1 = .completed ∧ q2 = .completed ∧ q3 = .completed) ∧
  (q5 = .processing → q1 = .completed ∧ q2 = .completed ∧ q3 = .completed ∧ q4 = .completed)

/-- Invariant holding in every reachable state, quiescent or in-flight. -/
def InvAll (s : AppState) : Prop :=
  stepsWF s.steps ∧
  Mono5 (statusAt s.steps 0) (statusAt s.steps 1) (statusAt s.steps 2)
    (statusAt s.steps 3) (statusAt s.steps 4) ∧
  (s.generatedImage ≠ none →
    statusAt s.steps 0 = .completed ∧ statusAt s.steps 1 = .completed ∧
    statusAt s.steps 2 = .completed ∧ statusAt s.steps 3 = .completed)

/-- Invariant holding additionally in every quiescent state: a recorded
analysis result means the analysis stage is completed. -/
def InvQ (s : AppState) : Prop :=
  InvAll s ∧ (strOptTruthy s.analysisText = true → statusAt s.steps 0 = .completed)

/-- The scenario of a composed request, when composition succeeded. -/
def requestScenario (r : Except GenError GenRequest) : Option Scenario :=
  match r with
  | .ok req => some req.scenario
  | .error _ => none

/-- The state reached by the reset micro-step at the start of
`handleGenerate` (App.tsx lines 155-162). -/
def resetStateOf (s : AppState) : AppState :=
  { s with isProcessing := true, generatedImage := none, steps := resetSteps s.steps s.analysisText }

/-- A demonstration run: key selected, both images uploaded, analysis
succeeded. -/
def demoBase : AppState :=
  eventRun (eventRun (eventRun initialState Event.setApiKey) Event.uploadActor)
    (Event.uploadRef (Except.ok "ctx"))

/-- `demoBase` after one successful generation. -/
def demoGenerated : AppState :=
  eventRun demoBase (Event.generate (Except.ok "IMG1") false)

/-- `demoGenerated` after the user typed a refinement instruction. -/
def demoReady : AppState :=
  eventRun demoGenerated (Event.editRefinePrompt "fix the hand")

lemma statusAt_nil (n : Nat) : statusAt [] n = .pending := rfl

lemma statusAt_cons_zero (p : ProcessingStep) (l : List ProcessingStep) :
    statusAt (p :: l) 0 = p.status := rfl

lemma statusAt_cons_succ (p : ProcessingStep) (l : List ProcessingStep) (n : Nat) :
    statusAt (p :: l) (n + 1) = statusAt l n := rfl

lemma statusAt_five_of_ge (x1 x2 x3 x4 x5 : ProcessingStep) (j : Nat) (h : 5 ≤ j) :
    statusAt [x1, x2, x3, x4, x5] j = .pending := by
  obtain ⟨n, rfl⟩ := Nat.exists_eq_add_of_le h
  rw [Nat.add_comm]
  rfl

lemma monotoneSteps_of_five (x1 x2 x3 x4 x5 : ProcessingStep)
    (h : Mono5 x1.status x2.status x3.status x4.status x5.status) :
    MonotoneSteps [x1, x2, x3, x4, x5] := by
  obtain ⟨h1, h2, h3, h4⟩ := h
  intro i j hij hj
  have hj5 : j < 5 := by
    by_contra hge
    rw [statusAt_five_of_ge x1 x2 x3 x4 x5 j (by omega)] at hj
    exact absurd hj (by decide)
  interval_cases j <;> interval_cases i <;>
    simp only [statusAt_cons_zero, statusAt_cons_succ] at hj ⊢
  · exact h1 hj
  · exact (h2 hj).1
  · exact (h2 hj).2
  · exact (h3 hj).1
  · exact (h3 hj).2.1
  · exact (h3 hj).2.2
  · exact (h4 hj).1
  · exact (h4 hj).2.1
  · exact (h4 hj).2.2.1
  · exact (h4 hj).2.2.2

lemma updateStep_five_1 (x1 x2 x3 x4 x5 : ProcessingStep)
    (h1 : x1.id = "1") (h2 : x2.id = "2") (h3 : x3.id = "3") (h4 : x4.id = "4")
    (h5 : x5.id = "5") (st : StepStatus) (det : Option String) :
    updateStep [x1, x2, x3, x4, x5] "1" st det =
      [{ x1 with status := st, details := det }, x2, x3, x4, x5] := by
  simp [updateStep, h1, h2, h3, h4, h5]

lemma updateStep_five_2 (x1 x2 x3 x4 x5 : ProcessingStep)
    (h1 : x1.id = "1") (h2 : x2.id = "2") (h3 : x3.id = "3") (h4 : x4.id = "4")
    (h5 : x5.id = "5") (st : StepStatus) (det : Option String) :
    updateStep [x1, x2, x3, x4, x5] "2" st det =
      [x1, { x2 with status := st, details := det }, x3, x4, x5] := by
  simp [updateStep, h1, h2, h3, h4, h5]

lemma updateStep_five_3 (x1 x2 x3 x4 x5 : ProcessingStep)
    (h1 : x1.id = "1") (h2 : x2.id = "2") (h3 : x3.id = "3") (h4 : x4.id = "4")
    (h5 : x5.id = "5") (st : StepStatus) (det : Option String) :
    updateStep [x1, x2, x3, x4, x5] "3" st det =
      [x1, x2, { x3 with status := st, details := det }, x4, x5] := by
  simp [updateStep, h1, h2, h3, h4, h5]

lemma updateStep_five_4 (x1 x2 x3 x4 x5 : ProcessingStep)
    (h1 : x1.id = "1") (h2 : x2.id = "2") (h3 : x3.id = "3") (h4 : x4.id = "4")
    (h5 : x5.id = "5") (st : StepStatus) (det : Option String) :
    updateStep [x1, x2, x3, x4, x5] "4" st det =
      [x1, x2, x3, { x4 with status := st, details := det }, x5] := by
  simp [updateStep, h1, h2, h3, h4, h5]

lemma updateStep_five_5 (x1 x2 x3 x4 x5 : ProcessingStep)
    (h1 : x1.id = "1") (h2 : x2.id = "2") (h3 : x3.id = "3") (h4 : x4.id = "4")
    (h5 : x5.id = "5") (st : StepStatus) (det : Option String) :
    updateStep [x1, x2, x3, x4, x5] "5" st det =
      [x1, x2, x3, x4, { x5 with status := st, details := det }] := by
  simp [updateStep, h1, h2, h3, h4, h5]

lemma resetSteps_five_truthy (x1 x2 x3 x4 x5 : ProcessingStep) (ana : Option String)
    (h1 : x1.id = "1") (h2 : x2.id = "2") (h3 : x3.id = "3") (h4 : x4.id = "4")
    (h5 : x5.id = "5") (hana : strOptTruthy ana = true) :
    resetSteps [x1, x2, x3, x4, x5] ana =
      [x1, { x2 with status := .pending, details := none },
       { x3 with status := .pending, details := none },
       { x4 with status := .pending, details := none },
       { x5 with status := .pending, details := none }] := by
  simp [resetSteps, h1, h2, h3, h4, h5, hana]

lemma resetSteps_five_falsy (x1 x2 x3 x4 x5 : ProcessingStep) (ana : Option String)
    (h1 : x1.id = "1") (h2 : x2.id = "2") (h3 : x3.id = "3") (h4 : x4.id = "4")
    (h5 : x5.id = "5") (hana : strOptTruthy ana = false) :
    resetSteps [x1, x2, x3, x4, x5] ana =
      [{ x1 with status := .pending, details := none },
       { x2 with status := .pending, details := none },
       { x3 with status := .pending, details := none },
       { x4 with status := .pending, details := none },
       { x5 with status := .pending, details := none }] := by
  simp [resetSteps, h1, h2, h3, h4, h5, hana]

lemma getLastD_append_cons {α : Type} (l1 l2 : List α) (b d : α) :
    (l1 ++ (b :: l2)).getLastD d = l2.getLastD b := by
  induction l1 generalizing d with
  | nil => exact List.getLastD_cons d b l2
  | cons a t ih => rw [List.cons_append, List.getLastD_cons]; exact ih a

lemma invAll_of (x : AppState) (x1 x2 x3 x4 x5 : ProcessingStep)
    (hsteps : x.steps = [x1, x2, x3, x4, x5])
    (h1 : x1.id = "1") (h2 : x2.id = "2") (h3 : x3.id = "3") (h4 : x4.id = "4")
    (h5 : x5.id = "5")
    (hm : Mono5 x1.status x2.status x3.status x4.status x5.status)
    (hi : x.generatedImage ≠ none →
      x1.status = .completed ∧ x2.status = .completed ∧
      x3.status = .completed ∧ x4.status = .completed) :
    InvAll x := by
  refine ⟨⟨x1, x2, x3, x4, x5, hsteps, h1, h2, h3, h4, h5⟩, ?_, ?_⟩ <;> rw [hsteps]
  · exact hm
  · exact hi

lemma generateFinishTrace_inv (s4 : AppState) (res : Except GenError String)
    (studio : Bool) (x1 x2 x3 x4 x5 : ProcessingStep)
    (hst : s4.steps = [x1, x2, x3, x4, x5])
    (h1 : x1.id = "1") (h2 : x2.id = "2") (h3 : x3.id = "3") (h4 : x4.id = "4")
    (h5 : x5.id = "5") (hA : x1.status = .completed) (hB : x2.status = .pending)
    (hC : x3.status = .pending) (hD : x4.status = .pending) (hE : x5.status = .pending)
    (himg : s4.generatedImage = none) :
    (∀ x ∈ generateFinishTrace s4 res studio, InvAll x) ∧
    InvQ ((generateFinishTrace s4 res studio).getLastD s4) := by
  have E5 : updateStep [x1, x2, x3, x4, x5] "2" .processing (some "Skeleton mapping & Pose transfer...") = [x1, { x2 with status := StepStatus.processing, details := some "Skeleton mapping & Pose transfer..." }, x3, x4, x5] := by
    simp [updateStep, h1, h2, h3, h4, h5]
  have E6 : updateStep [x1, { x2 with status := StepStatus.processing, details := some "Skeleton mapping & Pose transfer..." }, x3, x4, x5] "2" .completed none = [x1, { x2 with status := StepStatus.completed, details := none }, x3, x4, x5] := by
    simp [updateStep, h1, h2, h3, h4, h5]
  have E7 : updateStep [x1, { x2 with status := StepStatus.completed, details := none }, x3, x4, x5] "3" .processing (some "Raytraced Shadow & Skin SSS...") = [x1, { x2 with status := StepStatus.completed, details := none }, { x3 with status := StepStatus.processing, details := some "Raytraced Shadow & Skin SSS..." }, x4, x5] := by
    simp [updateStep, h1, h2, h3, h4, h5]
  have E8 : updateStep [x1, { x2 with status := StepStatus.completed, details := none }, { x3 with status := StepStatus.processing, details := some "Raytraced Shadow & Skin SSS..." }, x4, x5] "3" .completed none = [x1, { x2 with status := StepStatus.completed, details := none }, { x3 with status := StepStatus.completed, details := none }, x4, x5] := by
    simp [updateStep, h1, h2, h3, h4, h5]
  have E9 : updateStep [x1, { x2 with status := StepStatus.completed, details := none }, { x3 with status := StepStatus.completed, details := none }, x4, x5] "4" .processing (some "Compositing Layout & Breathing Room...") = [x1, { x2 with status := StepStatus.completed, details := none }, { x3 with status := StepStatus.completed, details := none }, { x4 with status := StepStatus.processing, details := some "Compositing Layout & Breathing Room..." }, x5] := by
    simp [updateStep, h1, h2, h3, h4, h5]
  have E10 : updateStep [x1, { x2 with status := StepStatus.completed, details := none }, { x3 with status := StepStatus.completed, details := none }, { x4 with status := StepStatus.processing, details := some "Compositing Layout & Breathing Room..." }, x5] "4" .completed none = [x1, { x2 with status := StepStatus.completed, details := none }, { x3 with status := StepStatus.completed, details := none }, { x4 with status := StepStatus.completed, details := none }, x5] := by
    simp [updateStep, h1, h2, h3, h4, h5]
  have E11 : updateStep [x1, { x2 with status := StepStatus.completed, details := none }, { x3 with status := StepStatus.completed, details := none }, { x4 with status := StepStatus.completed, details := none }, x5] "5" .processing (some "Final 4K Texture Grading...") = [x1, { x2 with status := StepStatus.completed, details := none }, { x3 with status := StepStatus.completed, details := none }, { x4 with status := StepStatus.completed, details := none }, { x5 with status := StepStatus.processing, details := some "Final 4K Texture Grading..." }] := by
    simp [updateStep, h1, h2, h3, h4, h5]
  have EF : ∀ (st : StepStatus) (det : Option String), updateStep [x1, { x2 with status := StepStatus.completed, details := none }, { x3 with status := StepStatus.completed, details := none }, { x4 with status := StepStatus.completed, details := none }, { x5 with status := StepStatus.processing, details := some "Final 4K Texture Grading..." }] "5" st det = [x1, { x2 with status := StepStatus.completed, details := none }, { x3 with status := StepStatus.completed, details := none }, { x4 with status := StepStatus.completed, details := none }, { x5 with status := st, details := det }] := by
    intro st det
    simp [updateStep, h1, h2, h3, h4, h5]
  constructor
  · intro x hx
    rcases res with err | url
    · simp only [generateFinishTrace] at hx
      cases hbr : (strContains (genErrorMessage err) "Requested entity was not found" && studio) with
      | true =>
        rw [if_pos hbr] at hx
        simp only [List.mem_append, List.mem_cons, List.not_mem_nil, or_false, or_assoc] at hx
        rcases hx with rfl | rfl | rfl | rfl | rfl | rfl | rfl | rfl | rfl | rfl | rfl <;>
          exact invAll_of _ _ _ _ _ _
            (by simp only [hst, E5, E6, E7, E8, E9, E10, E11, EF]; rfl)
            (by exact h1) (by exact h2) (by exact h3) (by exact h4) (by exact h5)
            (by simp [Mono5, hA, hB, hC, hD, hE])
            (by simp [himg, hA])
      | false =>
        rw [if_neg (show
            ¬((strContains (genErrorMessage err) "Requested entity was not found" && studio) = true) by
              simp [hbr])] at hx
        simp only [List.mem_append, List.mem_cons, List.not_mem_nil, or_false, or_assoc] at hx
        rcases hx with rfl | rfl | rfl | rfl | rfl | rfl | rfl | rfl | rfl <;>
          exact invAll_of _ _ _ _ _ _
            (by simp only [hst, E5, E6, E7, E8, E9, E10, E11, EF]; rfl)
            (by exact h1) (by exact h2) (by exact h3) (by exact h4) (by exact h5)
            (by simp [Mono5, hA, hB, hC, hD, hE])
            (by simp [himg, hA])
    · simp only [generateFinishTrace, List.mem_append, List.mem_cons,
        List.not_mem_nil, or_false, or_assoc] at hx
      rcases hx with rfl | rfl | rfl | rfl | rfl | rfl | rfl | rfl | rfl | rfl <;>
        exact invAll_of _ _ _ _ _ _
          (by simp only [hst, E5, E6, E7, E8, E9, E10, E11, EF]; rfl)
          (by exact h1) (by exact h2) (by exact h3) (by exact h4) (by exact h5)
          (by simp [Mono5, hA, hB, hC, hD, hE])
          (by simp [himg, hA])
  · rcases res with err | url
    · simp only [generateFinishTrace]
      rcases Bool.eq_false_or_eq_true
          (strContains (genErrorMessage err) "Requested entity was not found" && studio) with
        hbr | hbr
      · rw [if_pos hbr, getLastD_append_cons, List.getLastD_cons, List.getLastD_cons,
          List.getLastD_cons]
        refine ⟨invAll_of _ _ _ _ _ _
          (by simp only [hst, E5, E6, E7, E8, E9, E10, E11, EF]; rfl)
          (by exact h1) (by exact h2) (by exact h3) (by exact h4) (by exact h5) (by simp [Mono5, hA]) (by simp [himg, hA]), fun _ => ?_⟩
        simp only [hst, E5, E6, E7, E8, E9, E10, E11, EF, statusAt_cons_zero]
        exact hA
      · rw [if_neg (show
            ¬((strContains (genErrorMessage err) "Requested entity was not found" && studio) = true) by
              simp [hbr]), getLastD_append_cons, List.getLastD_cons]
        refine ⟨invAll_of _ _ _ _ _ _
          (by simp only [hst, E5, E6, E7, E8, E9, E10, E11, EF]; rfl)
          (by exact h1) (by exact h2) (by exact h3) (by exact h4) (by exact h5) (by simp [Mono5, hA]) (by simp [himg, hA]), fun _ => ?_⟩
        simp only [hst, E5, E6, E7, E8, E9, E10, E11, EF, statusAt_cons_zero]
        exact hA
    · simp only [generateFinishTrace]
      rw [getLastD_append_cons, List.getLastD_cons, List.getLastD_cons]
      refine ⟨invAll_of _ _ _ _ _ _
        (by simp only [hst, E5, E6, E7, E8, E9, E10, E11, EF]; rfl)
        (by exact h1) (by exact h2) (by exact h3) (by exact h4) (by exact h5) (by simp [Mono5, hA]) (by simp [himg, hA]), fun _ => ?_⟩
      simp only [hst, E5, E6, E7, E8, E9, E10, E11, EF, statusAt_cons_zero]
      exact hA

lemma generateFinishTrace_ne_nil (s4 : AppState) (res : Except GenError String)
    (studio : Bool) : generateFinishTrace s4 res studio ≠ [] := by
  rcases res with err | url
  · simp only [generateFinishTrace]
    split <;> simp
  · simp [generateFinishTrace]

lemma getLastD_append_ne_nil {α : Type} (l1 l2 : List α) (d : α) (h : l2 ≠ []) :
    (l1 ++ l2).getLastD d = l2.getLastD d := by
  cases l2 with
  | nil => exact absurd rfl h
  | cons b t => rw [getLastD_append_cons, List.getLastD_cons]

lemma mono5_set1_completed (q1 q2 q3 q4 q5 : StepStatus) (h : Mono5 q1 q2 q3 q4 q5) :
    Mono5 .completed q2 q3 q4 q5 := by
  obtain ⟨m1, m2, m3, m4⟩ := h
  exact ⟨fun _ => rfl, fun hh => ⟨rfl, (m2 hh).2⟩,
    fun hh => ⟨rfl, (m3 hh).2.1, (m3 hh).2.2⟩,
    fun hh => ⟨rfl, (m4 hh).2.1, (m4 hh).2.2.1, (m4 hh).2.2.2⟩⟩

lemma invAll_copy (s x : AppState) (h : InvAll s) (hsteps : x.steps = s.steps)
    (himg : x.generatedImage = s.generatedImage) : InvAll x := by
  obtain ⟨wf, hm, hi⟩ := h
  refine ⟨?_, ?_, ?_⟩
  · rw [hsteps]; exact wf
  · rw [hsteps]; exact hm
  · rw [hsteps, himg]; exact hi

lemma invAll_copy_noimg (s x : AppState) (h : InvAll s) (hsteps : x.steps = s.steps)
    (himg : x.generatedImage = none) : InvAll x := by
  obtain ⟨wf, hm, _⟩ := h
  refine ⟨?_, ?_, fun hcon => absurd himg hcon⟩
  · rw [hsteps]; exact wf
  · rw [hsteps]; exact hm

lemma invQ_copy (s x : AppState) (h : InvQ s) (hsteps : x.steps = s.steps)
    (himg : x.generatedImage = s.generatedImage)
    (hana : x.analysisText = s.analysisText) : InvQ x := by
  refine ⟨invAll_copy s x h.1 hsteps himg, ?_⟩
  rw [hsteps, hana]
  exact h.2

lemma invQ_init : InvQ initialState := by
  refine ⟨⟨⟨_, _, _, _, _, rfl, rfl, rfl, rfl, rfl, rfl⟩, ?_, ?_⟩, ?_⟩
  · simp [Mono5, statusAt, initialState, initialSteps]
  · simp [initialState]
  · intro hh
    exact absurd hh (by simp [initialState, strOptTruthy])

lemma analyze_inv (s : AppState) (h : InvQ s) (res : Except Unit String) :
    (∀ x ∈ analyzeTrace s res, InvAll x) ∧ InvQ ((analyzeTrace s res).getLastD s) := by
  have hq := h
  obtain ⟨⟨⟨x1, x2, x3, x4, x5, hst, h1, h2, h3, h4, h5⟩, hm, hi⟩, hana⟩ := h
  rw [hst] at hm hi
  by_cases hg : (!s.apiKeySet) = true
  · constructor
    · intro x hx
      simp [analyzeTrace, hg] at hx
    · simp only [analyzeTrace, if_pos hg]
      exact hq
  · simp only [analyzeTrace, if_neg hg]
    have hupd1 : ∀ det, updateStep [x1, x2, x3, x4, x5] "1" .completed det =
        [{ x1 with status := StepStatus.completed, details := det }, x2, x3, x4, x5] := by
      intro det
      simp [updateStep, h1, h2, h3, h4, h5]
    rcases res with e | text
    · constructor
      · intro x hx
        simp only [List.mem_cons, List.not_mem_nil, or_false] at hx
        rcases hx with rfl | rfl | rfl | rfl
        · exact invAll_copy s _ hq.1 rfl rfl
        · exact invAll_copy s _ hq.1 rfl rfl
        · exact invAll_of _ _ _ _ _ _ (by simp only [hst, hupd1]; rfl)
            (by exact h1) (by exact h2) (by exact h3) (by exact h4) (by exact h5)
            (by exact mono5_set1_completed _ _ _ _ _ hm)
            (fun hcon => ⟨rfl, (hi hcon).2.1, (hi hcon).2.2.1, (hi hcon).2.2.2⟩)
        · exact invAll_of _ _ _ _ _ _ (by simp only [hst, hupd1]; rfl)
            (by exact h1) (by exact h2) (by exact h3) (by exact h4) (by exact h5)
            (by exact mono5_set1_completed _ _ _ _ _ hm)
            (fun hcon => ⟨rfl, (hi hcon).2.1, (hi hcon).2.2.1, (hi hcon).2.2.2⟩)
      · rw [List.getLastD_cons, List.getLastD_cons, List.getLastD_cons, List.getLastD_cons]
        refine ⟨invAll_of _ _ _ _ _ _ (by simp only [hst, hupd1]; rfl)
          (by exact h1) (by exact h2) (by exact h3) (by exact h4) (by exact h5)
          (by exact mono5_set1_completed _ _ _ _ _ hm)
          (fun hcon => ⟨rfl, (hi hcon).2.1, (hi hcon).2.2.1, (hi hcon).2.2.2⟩),
          fun hh => ?_⟩
        exact absurd hh (by simp [strOptTruthy])
    · constructor
      · intro x hx
        simp only [List.mem_cons, List.not_mem_nil, or_false] at hx
        rcases hx with rfl | rfl | rfl | rfl | rfl
        · exact invAll_copy s _ hq.1 rfl rfl
        · exact invAll_copy s _ hq.1 rfl rfl
        · exact invAll_copy s _ hq.1 rfl rfl
        · exact invAll_of _ _ _ _ _ _ (by simp only [hst, hupd1]; rfl)
            (by exact h1) (by exact h2) (by exact h3) (by exact h4) (by exact h5)
            (by exact mono5_set1_completed _ _ _ _ _ hm)
            (fun hcon => ⟨rfl, (hi hcon).2.1, (hi hcon).2.2.1, (hi hcon).2.2.2⟩)
        · exact invAll_of _ _ _ _ _ _ (by simp only [hst, hupd1]; rfl)
            (by exact h1) (by exact h2) (by exact h3) (by exact h4) (by exact h5)
            (by exact mono5_set1_completed _ _ _ _ _ hm)
            (fun hcon => ⟨rfl, (hi hcon).2.1, (hi hcon).2.2.1, (hi hcon).2.2.2⟩)
      · rw [List.getLastD_cons, List.getLastD_cons, List.getLastD_cons, List.getLastD_cons,
          List.getLastD_cons]
        exact ⟨invAll_of _ _ _ _ _ _ (by simp only [hst, hupd1]; rfl)
          (by exact h1) (by exact h2) (by exact h3) (by exact h4) (by exact h5)
          (by exact mono5_set1_completed _ _ _ _ _ hm)
          (fun hcon => ⟨rfl, (hi hcon).2.1, (hi hcon).2.2.1, (hi hcon).2.2.2⟩),
          fun _ => by simp only [List.getLastD_nil, hst, hupd1, statusAt_cons_zero]⟩

lemma getLastD_ne_nil_default {α : Type} (l : List α) (h : l ≠ []) (d1 d2 : α) :
    l.getLastD d1 = l.getLastD d2 := by
  cases l with
  | nil => exact absurd rfl h
  | cons b t => rw [List.getLastD_cons, List.getLastD_cons]

lemma refine_inv (s : AppState) (h : InvQ s) (res : Except GenError String) :
    (∀ x ∈ refineTrace s res, InvAll x) ∧ InvQ ((refineTrace s res).getLastD s) := by
  have hq := h
  obtain ⟨⟨⟨x1, x2, x3, x4, x5, hst, h1, h2, h3, h4, h5⟩, hm, hi⟩, hana⟩ := h
  rw [hst] at hm hi
  simp only [statusAt_cons_zero, statusAt_cons_succ] at hm hi
  by_cases hg : (s.generatedImage.isNone || jsTrim s.refinePrompt == "" || s.isRefining) = true
  · constructor
    · intro x hx
      simp [refineTrace, hg] at hx
    · simp only [refineTrace, if_pos hg]
      exact hq
  · have himgne : s.generatedImage ≠ none := by
      intro hcon
      apply hg
      simp [hcon]
    have h14 := hi himgne
    have hupd5a : ∀ (st : StepStatus) (det : Option String),
        updateStep [x1, x2, x3, x4, x5] "5" st det =
        [x1, x2, x3, x4, { x5 with status := st, details := det }] := by
      intro st det
      simp [updateStep, h1, h2, h3, h4, h5]
    have hupd5b : ∀ (st1 : StepStatus) (det1 : Option String) (st : StepStatus)
        (det : Option String),
        updateStep [x1, x2, x3, x4, { x5 with status := st1, details := det1 }] "5" st det =
        [x1, x2, x3, x4, { x5 with status := st, details := det }] := by
      intro st1 det1 st det
      simp [updateStep, h1, h2, h3, h4, h5]
    simp only [refineTrace, if_neg hg]
    rcases res with err | url
    · constructor
      · intro x hx
        simp only [List.mem_cons, List.not_mem_nil, or_false] at hx
        rcases hx with rfl | rfl | rfl | rfl <;>
          first
            | exact invAll_copy s _ hq.1 rfl rfl
            | exact invAll_of _ _ _ _ _ _ (by simp only [hst, hupd5a, hupd5b]; rfl)
                (by exact h1) (by exact h2) (by exact h3) (by exact h4) (by exact h5)
                (by simp [Mono5, h14.1, h14.2.1, h14.2.2.1, h14.2.2.2])
                (fun _ => h14)
      · rw [List.getLastD_cons, List.getLastD_cons, List.getLastD_cons, List.getLastD_cons]
        refine ⟨invAll_of _ _ _ _ _ _ (by simp only [hst, hupd5a, hupd5b]; rfl)
          (by exact h1) (by exact h2) (by exact h3) (by exact h4) (by exact h5)
          (by simp [Mono5, h14.1, h14.2.1, h14.2.2.1, h14.2.2.2])
          (fun _ => h14), fun _ => ?_⟩
        simp only [List.getLastD_nil, hst, hupd5a, hupd5b, statusAt_cons_zero]
        exact h14.1
    · constructor
      · intro x hx
        simp only [List.mem_cons, List.not_mem_nil, or_false] at hx
        rcases hx with rfl | rfl | rfl | rfl | rfl | rfl <;>
          first
            | exact invAll_copy s _ hq.1 rfl rfl
            | exact invAll_of _ _ _ _ _ _ (by simp only [hst, hupd5a, hupd5b]; rfl)
                (by exact h1) (by exact h2) (by exact h3) (by exact h4) (by exact h5)
                (by simp [Mono5, h14.1, h14.2.1, h14.2.2.1, h14.2.2.2])
                (fun _ => h14)
      · rw [List.getLastD_cons, List.getLastD_cons, List.getLastD_cons, List.getLastD_cons,
          List.getLastD_cons, List.getLastD_cons]
        refine ⟨invAll_of _ _ _ _ _ _ (by simp only [hst, hupd5a, hupd5b]; rfl)
          (by exact h1) (by exact h2) (by exact h3) (by exact h4) (by exact h5)
          (by simp [Mono5, h14.1, h14.2.1, h14.2.2.1, h14.2.2.2])
          (fun _ => h14), fun _ => ?_⟩
        simp only [List.getLastD_nil, hst, hupd5a, hupd5b, statusAt_cons_zero]
        exact h14.1

lemma generate_inv (s : AppState) (h : InvQ s) (res : Except GenError String)
    (studio : Bool) :
    (∀ x ∈ generateTrace s res studio, InvAll x) ∧
    InvQ ((generateTrace s res studio).getLastD s) := by
  have hq := h
  obtain ⟨⟨⟨x1, x2, x3, x4, x5, hst, h1, h2, h3, h4, h5⟩, hm, hi⟩, hana⟩ := h
  rw [hst] at hm hi
  by_cases hg : (!s.actorFile || !s.refFile || !s.apiKeySet) = true
  · constructor
    · intro x hx
      simp [generateTrace, hg] at hx
    · simp only [generateTrace, if_pos hg]
      exact hq
  · simp only [generateTrace, if_neg hg]
    by_cases hat : strOptTruthy s.analysisText = true
    · have hres : resetSteps s.steps s.analysisText = [x1, { x2 with status := StepStatus.pending, details := none }, { x3 with status := StepStatus.pending, details := none }, { x4 with status := StepStatus.pending, details := none }, { x5 with status := StepStatus.pending, details := none }] := by
        rw [hst]
        exact resetSteps_five_truthy x1 x2 x3 x4 x5 _ h1 h2 h3 h4 h5 hat
      have hx1c : x1.status = .completed := by
        have hh := hana hat
        rw [hst] at hh
        exact hh
      rw [if_pos hat, hres]
      obtain ⟨Hmem, Hlast⟩ := generateFinishTrace_inv
        ({ s with isProcessing := true, generatedImage := none, steps := [x1, { x2 with status := StepStatus.pending, details := none }, { x3 with status := StepStatus.pending, details := none }, { x4 with status := StepStatus.pending, details := none }, { x5 with status := StepStatus.pending, details := none }] }) res studio
        x1 ({ x2 with status := StepStatus.pending, details := none }) ({ x3 with status := StepStatus.pending, details := none }) ({ x4 with status := StepStatus.pending, details := none }) ({ x5 with status := StepStatus.pending, details := none }) rfl h1 (by exact h2) (by exact h3) (by exact h4) (by exact h5)
        hx1c rfl rfl rfl rfl rfl
      constructor
      · intro x hx
        rcases List.mem_append.mp hx with hpre | hfin
        · simp only [List.mem_cons, List.not_mem_nil, or_false] at hpre
          rcases hpre with rfl | rfl | rfl
          · exact invAll_copy s _ hq.1 rfl rfl
          · exact invAll_copy_noimg s _ hq.1 rfl rfl
          · exact invAll_of _ _ _ _ _ _ rfl
              (by exact h1) (by exact h2) (by exact h3) (by exact h4) (by exact h5)
              (by simp [Mono5]) (by simp)
        · exact Hmem x hfin
      · rw [getLastD_append_ne_nil _ _ _ (generateFinishTrace_ne_nil _ _ _),
          getLastD_ne_nil_default _ (generateFinishTrace_ne_nil _ _ _) s
            ({ s with isProcessing := true, generatedImage := none, steps := [x1, { x2 with status := StepStatus.pending, details := none }, { x3 with status := StepStatus.pending, details := none }, { x4 with status := StepStatus.pending, details := none }, { x5 with status := StepStatus.pending, details := none }] })]
        exact Hlast
    · have hatf : strOptTruthy s.analysisText = false := by
        revert hat
        cases strOptTruthy s.analysisText <;> simp
      have hres : resetSteps s.steps s.analysisText = [{ x1 with status := StepStatus.pending, details := none }, { x2 with status := StepStatus.pending, details := none }, { x3 with status := StepStatus.pending, details := none }, { x4 with status := StepStatus.pending, details := none }, { x5 with status := StepStatus.pending, details := none }] := by
        rw [hst]
        exact resetSteps_five_falsy x1 x2 x3 x4 x5 _ h1 h2 h3 h4 h5 hatf
      have hupd1 : updateStep [{ x1 with status := StepStatus.pending, details := none }, { x2 with status := StepStatus.pending, details := none }, { x3 with status := StepStatus.pending, details := none }, { x4 with status := StepStatus.pending, details := none }, { x5 with status := StepStatus.pending, details := none }] "1" .completed
          (some "Using fast segmentation") = [{ x1 with status := StepStatus.completed, details := some "Using fast segmentation" }, { x2 with status := StepStatus.pending, details := none }, { x3 with status := StepStatus.pending, details := none }, { x4 with status := StepStatus.pending, details := none }, { x5 with status := StepStatus.pending, details := none }] := by
        simp [updateStep, h1, h2, h3, h4, h5]
      rw [if_neg hat, hres, hupd1]
      obtain ⟨Hmem, Hlast⟩ := generateFinishTrace_inv
        ({ s with isProcessing := true, generatedImage := none, steps := [{ x1 with status := StepStatus.completed, details := some "Using fast segmentation" }, { x2 with status := StepStatus.pending, details := none }, { x3 with status := StepStatus.pending, details := none }, { x4 with status := StepStatus.pending, details := none }, { x5 with status := StepStatus.pending, details := none }] }) res studio
        ({ x1 with status := StepStatus.completed, details := some "Using fast segmentation" }) ({ x2 with status := StepStatus.pending, details := none }) ({ x3 with status := StepStatus.pending, details := none }) ({ x4 with status := StepStatus.pending, details := none }) ({ x5 with status := StepStatus.pending, details := none }) rfl (by exact h1) (by exact h2) (by exact h3) (by exact h4)
        (by exact h5) rfl rfl rfl rfl rfl rfl
      constructor
      · intro x hx
        rcases List.mem_append.mp hx with hpre | hfin
        · simp only [List.mem_cons, List.not_mem_nil, or_false] at hpre
          rcases hpre with rfl | rfl | rfl | rfl
          · exact invAll_copy s _ hq.1 rfl rfl
          · exact invAll_copy_noimg s _ hq.1 rfl rfl
          · exact invAll_of _ _ _ _ _ _ rfl
              (by exact h1) (by exact h2) (by exact h3) (by exact h4) (by exact h5)
              (by simp [Mono5]) (by simp)
          · exact invAll_of _ _ _ _ _ _ rfl
              (by exact h1) (by exact h2) (by exact h3) (by exact h4) (by exact h5)
              (by simp [Mono5]) (by simp)
        · exact Hmem x hfin
      · rw [getLastD_append_ne_nil _ _ _ (generateFinishTrace_ne_nil _ _ _),
          getLastD_ne_nil_default _ (generateFinishTrace_ne_nil _ _ _) s
            ({ s with isProcessing := true, generatedImage := none, steps := [{ x1 with status := StepStatus.completed, details := some "Using fast segmentation" }, { x2 with status := StepStatus.pending, details := none }, { x3 with status := StepStatus.pending, details := none }, { x4 with status := StepStatus.pending, details := none }, { x5 with status := StepStatus.pending, details := none }] })]
        exact Hlast

lemma event_inv (s : AppState) (h : InvQ s) (e : Event) :
    (∀ x ∈ eventTrace s e, InvAll x) ∧ InvQ (eventRun s e) := by
  cases e with
  | setApiKey =>
    constructor
    · intro x hx
      simp only [eventTrace, List.mem_cons, List.not_mem_nil, or_false] at hx
      subst hx
      exact invAll_copy s _ h.1 rfl rfl
    · exact invQ_copy s _ h rfl rfl rfl
  | uploadActor =>
    constructor
    · intro x hx
      simp only [eventTrace, List.mem_cons, List.not_mem_nil, or_false] at hx
      subst hx
      exact invAll_copy s _ h.1 rfl rfl
    · exact invQ_copy s _ h rfl rfl rfl
  | editRefinePrompt p =>
    constructor
    · intro x hx
      simp only [eventTrace, List.mem_cons, List.not_mem_nil, or_false] at hx
      subst hx
      exact invAll_copy s _ h.1 rfl rfl
    · exact invQ_copy s _ h rfl rfl rfl
  | uploadRef res =>
    have h1q : InvQ ({ s with refFile := true }) := invQ_copy s _ h rfl rfl rfl
    obtain ⟨Hmem, Hlast⟩ := analyze_inv ({ s with refFile := true }) h1q res
    constructor
    · intro x hx
      simp only [eventTrace, List.mem_cons] at hx
      rcases hx with rfl | hmem
      · exact invAll_copy s _ h.1 rfl rfl
      · exact Hmem x hmem
    · simp only [eventRun, eventTrace]
      rw [List.getLastD_cons]
      exact Hlast
  | generate res studio => exact generate_inv s h res studio
  | refine res => exact refine_inv s h res

lemma reachableQ_invQ (s : AppState) (h : ReachableQ s) : InvQ s := by
  induction h with
  | init => exact invQ_init
  | step s0 e h0 ih => exact (event_inv s0 ih e).2

lemma reachable_invAll (x : AppState) (h : Reachable x) : InvAll x := by
  rcases h with hrq | ⟨s, e, hs, hmem⟩
  · exact (reachableQ_invQ x hrq).1
  · exact (event_inv s (reachableQ_invQ s hs) e).1 x hmem

lemma reachable_monotone (x : AppState) (h : Reachable x) : MonotoneSteps x.steps := by
  obtain ⟨⟨a, b, c, d, e, hstx, i1, i2, i3, i4, i5⟩, hmx, _⟩ := reachable_invAll x h
  rw [hstx] at hmx ⊢
  exact monotoneSteps_of_five a b c d e hmx

lemma getLastD_mem {α : Type} (l : List α) (d : α) (h : l ≠ []) : l.getLastD d ∈ l := by
  induction l generalizing d with
  | nil => exact absurd rfl h
  | cons b t ih =>
    rw [List.getLastD_cons]
    cases t with
    | nil => simp [List.getLastD_nil]
    | cons c u => exact List.mem_cons_of_mem _ (ih b (by simp))

lemma firstImageData_none (ps : List ContentPart)
    (h : ∀ p ∈ ps, partHasImage p = false) : firstImageData ps = none := by
  induction ps with
  | nil => rfl
  | cons p rest ih =>
    have hp := h p (List.mem_cons_self _ _)
    have hrest := ih (fun q hq => h q (List.mem_cons_of_mem _ hq))
    cases hd : p.inlineData with
    | none => simpa [firstImageData, hd] using hrest
    | some d =>
      have hdata : d.data = "" := by
        simpa [partHasImage, hd] using hp
      simp [firstImageData, hd, hdata, hrest]

lemma findTextValue_exists (ps : List ContentPart)
    (h : ∃ p ∈ ps, partHasText p = true) :
    ∃ t, findTextValue ps = some t ∧ ∃ p ∈ ps, p.text = some t := by
  induction ps with
  | nil => simp at h
  | cons p rest ih =>
    cases ht : p.text with
    | some str =>
      by_cases hs : str = ""
      · subst hs
        have hrest : ∃ q ∈ rest, partHasText q = true := by
          rcases h with ⟨q, hq, hqt⟩
          rcases List.mem_cons.mp hq with rfl | hqr
          · simp [partHasText, ht] at hqt
          · exact ⟨q, hqr, hqt⟩
        obtain ⟨t, hft, q, hqm, hqt⟩ := ih hrest
        exact ⟨t, by simp [findTextValue, ht, hft],
          ⟨q, List.mem_cons_of_mem _ hqm, hqt⟩⟩
      · exact ⟨str, by simp [findTextValue, ht, hs], ⟨p, List.mem_cons_self _ _, ht⟩⟩
    | none =>
      have hrest : ∃ q ∈ rest, partHasText q = true := by
        rcases h with ⟨q, hq, hqt⟩
        rcases List.mem_cons.mp hq with rfl | hqr
        · simp [partHasText, ht] at hqt
        · exact ⟨q, hqr, hqt⟩
      obtain ⟨t, hft, q, hqm, hqt⟩ := ih hrest
      exact ⟨t, by simp [findTextValue, ht, hft], ⟨q, List.mem_cons_of_mem _ hqm, hqt⟩⟩

lemma parseGenerateResponse_ok (r : Response) (s : String)
    (h : parseGenerateResponse r = Except.ok s) :
    ∃ d, s = "data:image/png;base64," ++ d := by
  rcases hc : r.candidates with _ | ⟨c, rest⟩
  · simp [parseGenerateResponse, hc] at h
  · rcases hco : c.content with _ | content
    · simp [parseGenerateResponse, hc, hco] at h
    · rcases hp : content.parts with _ | ps
      · simp [parseGenerateResponse, hc, hco, hp] at h
      · rcases hfi : firstImageData ps with _ | d
        · rcases hft : findTextValue ps with _ | t <;>
            simp [parseGenerateResponse, hc, hco, hp, hfi, hft] at h
        · refine ⟨d, ?_⟩
          simp only [parseGenerateResponse, hc, hco, hp, hfi] at h
          exact (Except.ok.inj h).symm

lemma parseRefineResponse_ok (r : Response) (s : String)
    (h : parseRefineResponse r = Except.ok s) :
    ∃ d, s = "data:image/png;base64," ++ d := by
  rcases hc : r.candidates with _ | ⟨c, rest⟩
  · simp [parseRefineResponse, hc] at h
  · rcases hco : c.content with _ | content
    · simp [parseRefineResponse, hc, hco] at h
    · rcases hp : content.parts with _ | ps
      · simp [parseRefineResponse, hc, hco, hp] at h
      · rcases hfi : firstImageData ps with _ | d
        · simp [parseRefineResponse, hc, hco, hp, hfi] at h
        · refine ⟨d, ?_⟩
          simp only [parseRefineResponse, hc, hco, hp, hfi] at h
          exact (Except.ok.inj h).symm

lemma generateFinishTrace_last_image (s4 : AppState) (res : Except GenError String)
    (studio : Bool) (d : AppState) :
    ((generateFinishTrace s4 res studio).getLastD d).generatedImage =
      (match res with
       | .ok url => some url
       | .error _ => s4.generatedImage) := by
  rcases res with e | url
  · simp only [generateFinishTrace]
    rcases Bool.eq_false_or_eq_true
        (strContains (genErrorMessage e) "Requested entity was not found" && studio) with
      hbr | hbr
    · rw [if_pos hbr, getLastD_append_cons, List.getLastD_cons, List.getLastD_cons,
        List.getLastD_cons]
      rfl
    · rw [if_neg (show
        ¬((strContains (genErrorMessage e) "Requested entity was not found" && studio) = true) by
          simp [hbr]), getLastD_append_cons, List.getLastD_cons]
      rfl
  · simp only [generateFinishTrace]
    rw [getLastD_append_cons, List.getLastD_cons, List.getLastD_cons]
    rfl

/-- C1: for every combination of presence/absence of the three optional
inputs (subject/actor image, reference image, creative brief), with
present media inputs carrying a non-empty payload (the source treats an
empty base64 string as falsy), `generateFinalPoster` composes exactly one
scenario, determined by the presence flags: both images present gives
Identity Transfer, actor only gives Generative Placement, reference only
gives Guided Reimagination, brief only gives Pure Synthesis; and when all
three inputs are absent the composition fails with the `InvalidRequest`
error before any backend call: the result is that error for every
conceivable backend. -/
theorem scenario_selection_total
    (actorFile referenceFile : Option InputFile)
    (outputType landingPosition : String) (analysisContext : Option String)
    (preserveText : Bool) (customText creativePrompt : String)
    (hA : ∀ f, actorFile = some f → fileToBase64 f ≠ "")
    (hR : ∀ f, referenceFile = some f → fileToBase64 f ≠ "") :
    (¬(actorFile = none ∧ referenceFile = none ∧ creativePrompt = "") →
      requestScenario (buildGenerateRequest actorFile referenceFile outputType
          landingPosition analysisContext preserveText customText creativePrompt) =
        some (if actorFile.isSome then
            (if referenceFile.isSome then Scenario.identityTransfer
             else Scenario.generativePlacement)
          else
            (if referenceFile.isSome then Scenario.guidedReimagination
             else Scenario.pureSynthesis))) ∧
    (actorFile = none ∧ referenceFile = none ∧ creativePrompt = "" →
      ∀ backend, generateFinalPoster actorFile referenceFile outputType landingPosition
          analysisContext preserveText customText creativePrompt backend =
        Except.error GenError.invalidRequest) := by
  constructor
  · intro hne
    rcases actorFile with _ | actor <;> rcases referenceFile with _ | reference
    · have hcp : creativePrompt ≠ "" := fun hcon => hne ⟨rfl, rfl, hcon⟩
      simp [requestScenario, buildGenerateRequest, hcp]
    · simp [requestScenario, buildGenerateRequest, hR reference rfl]
    · simp [requestScenario, buildGenerateRequest, hA actor rfl]
    · simp [requestScenario, buildGenerateRequest, hA actor rfl, hR reference rfl]
  · rintro ⟨rfl, rfl, rfl⟩ backend
    simp [generateFinalPoster, buildGenerateRequest]

/-- C1 witness: both images present selects Identity Transfer; nothing
present fails with `InvalidRequest` without consulting the (empty-response)
backend. -/
theorem scenario_selection_total_witness :
    requestScenario (buildGenerateRequest (some ⟨"image/png", "AAA"⟩)
        (some ⟨"image/jpeg", "BBB"⟩) "thumbnail" "center" none false "" "") =
      some Scenario.identityTransfer ∧
    generateFinalPoster none none "thumbnail" "center" none false "" ""
        (fun _ => ⟨[]⟩) = Except.error GenError.invalidRequest :=
  ⟨(scenario_selection_total (some ⟨"image/png", "AAA"⟩) (some ⟨"image/jpeg", "BBB"⟩)
      "thumbnail" "center" none false "" ""
      (by intro f hf; cases hf; decide) (by intro f hf; cases hf; decide)).1
      (by simp),
   (scenario_selection_total none none "thumbnail" "center" none false "" ""
      (fun f hf => nomatch hf) (fun f hf => nomatch hf)).2
      ⟨rfl, rfl, rfl⟩ (fun _ => ⟨[]⟩)⟩

/-- C2: in the Identity Transfer scenario (both subject and reference
present, with non-empty payloads) the composed payload is exactly
reference media part, then subject media part, then the single
instruction-text part: the reference part strictly precedes the subject
part and the text part comes after all media parts. -/
theorem identity_transfer_media_order
    (actor reference : InputFile) (outputType landingPosition : String)
    (analysisContext : Option String) (preserveText : Bool)
    (customText creativePrompt : String)
    (hA : fileToBase64 actor ≠ "") (hR : fileToBase64 reference ≠ "") :
    buildGenerateRequest (some actor) (some reference) outputType landingPosition
        analysisContext preserveText customText creativePrompt =
      Except.ok
        { parts := [imagePart reference, imagePart actor,
            textContentPart (scenario1Prompt
              (resolveFormat outputType landingPosition).2 analysisContext
              creativePrompt (textOverlayInstruction preserveText customText))],
          aspectRatio := (resolveFormat outputType landingPosition).1,
          scenario := Scenario.identityTransfer } := by
  simp [buildGenerateRequest, hA, hR]

/-- C2 witness: a concrete Identity Transfer request, with the reference
part first, the subject part second, and the instruction text last. -/
theorem identity_transfer_media_order_witness :
    buildGenerateRequest (some ⟨"image/png", "AAA"⟩) (some ⟨"image/jpeg", "BBB"⟩)
        "ad_stories" "center" none false "" "" =
      Except.ok
        { parts := [imagePart ⟨"image/jpeg", "BBB"⟩, imagePart ⟨"image/png", "AAA"⟩,
            textContentPart (scenario1Prompt
              (resolveFormat "ad_stories" "center").2 none
              "" (textOverlayInstruction false ""))],
          aspectRatio := (resolveFormat "ad_stories" "center").1,
          scenario := Scenario.identityTransfer } :=
  identity_transfer_media_order ⟨"image/png", "AAA"⟩ ⟨"image/jpeg", "BBB"⟩
    "ad_stories" "center" none false "" "" (by decide) (by decide)

/-- C3 counterexample: the spec says `preserveText = false` always yields
the clean-plate instruction, and `(true, "")` yields a mockup
instruction.  In the code, `(false, "Sale Now")` yields the render
directive for the custom text (not the clean instruction), and
`(true, "")` yields the empty instruction (no mockup directive exists). -/
theorem text_overlay_policy_counterexample :
    textOverlayInstruction false "Sale Now" =
      "TEXT RENDER: Render the title \"Sale Now\" in the image with cinematic typography fitting the scene." ∧
    textOverlayInstruction false "Sale Now" ≠ "TEXT: No text. Clean image." ∧
    textOverlayInstruction true "" = "" := by
  refine ⟨by decide, by decide, by decide⟩

/-- C3 (amended): customText non-empty after trimming yields the render
instruction containing the literal customText, regardless of
preserveText; customText blank and preserveText false yields the
clean/no-text instruction; customText blank and preserveText true yields
the empty instruction. -/
theorem text_overlay_policy_amended (preserveText : Bool) (customText : String) :
    (jsTrim customText ≠ "" →
      textOverlayInstruction preserveText customText =
        "TEXT RENDER: Render the title \"" ++ customText ++
          "\" in the image with cinematic typography fitting the scene.") ∧
    (jsTrim customText = "" →
      textOverlayInstruction preserveText customText =
        (if preserveText then "" else "TEXT: No text. Clean image.")) := by
  constructor
  · intro hne
    have hlen : (jsTrim customText).length > 0 := by
      cases hcl : (jsTrim customText).length with
      | zero => exact absurd (String.ext (List.length_eq_zero.mp hcl)) hne
      | succ n => omega
    have hcust : customText ≠ "" := by
      intro hcon
      subst hcon
      exact hne rfl
    simp [textOverlayInstruction, hcust, hlen]
  · intro he
    have hcond : ¬(customText ≠ "" ∧ (jsTrim customText).length > 0) := by
      rintro ⟨_, hlen⟩
      rw [he] at hlen
      simp at hlen
    simp only [textOverlayInstruction, if_neg hcond]
    cases preserveText <;> simp

/-- C3 witness: the amended policy at `(false, "Sale Now")` and at
`(true, " ")`. -/
theorem text_overlay_policy_amended_witness :
    textOverlayInstruction false "Sale Now" =
      "TEXT RENDER: Render the title \"Sale Now\" in the image with cinematic typography fitting the scene." ∧
    textOverlayInstruction true " " = "" :=
  ⟨(text_overlay_policy_amended false "Sale Now").1 (by decide),
   (text_overlay_policy_amended true " ").2 (by decide)⟩

/-- C5: when the first response candidate carries parts with no
image-bearing part (truthy `inlineData.data`) but some truthy text part,
the generation parse fails with `Model Refusal` whose detail is exactly
the text of the first truthy text part. -/
theorem model_refusal_detail (r : Response) (c : RespCandidate)
    (rest : List RespCandidate) (content : RespContent) (ps : List ContentPart)
    (hc : r.candidates = c :: rest) (hco : c.content = some content)
    (hp : content.parts = some ps)
    (hnoimg : ∀ p ∈ ps, partHasImage p = false)
    (htext : ∃ p ∈ ps, partHasText p = true) :
    ∃ t, parseGenerateResponse r = Except.error (GenError.modelRefusal t) ∧
      findTextValue ps = some t ∧ ∃ p ∈ ps, p.text = some t := by
  obtain ⟨t, hft, hw⟩ := findTextValue_exists ps htext
  refine ⟨t, ?_, hft, hw⟩
  simp [parseGenerateResponse, hc, hco, hp, firstImageData_none ps hnoimg, hft]

/-- C5 witness: a one-candidate response holding a single text part turns
into a `Model Refusal` carrying that text. -/
theorem model_refusal_detail_witness :
    ∃ t, parseGenerateResponse
        ⟨[⟨some ⟨some [⟨none, some "I cannot help with that."⟩]⟩⟩]⟩ =
      Except.error (GenError.modelRefusal t) ∧
      findTextValue [⟨none, some "I cannot help with that."⟩] = some t ∧
      ∃ p ∈ ([⟨none, some "I cannot help with that."⟩] : List ContentPart),
        p.text = some t :=
  model_refusal_detail _ _ _ _ _ rfl rfl rfl (by decide) (by decide)

/-- C8: the format-resolution step is a pure total function: every
`(outputType, landingPosition)` pair yields an
`(aspectRatio, formatInstruction)` pair (the Lean model returns a plain
pair, mirroring that the source never throws here), and every
unrecognized outputType falls back to the 1:1 square-ad instruction. -/
theorem format_resolver_total_fallback (outputType landingPosition : String) :
    (∃ ar fi, resolveFormat outputType landingPosition = (ar, fi)) ∧
    (outputType ≠ "ad_stories" → outputType ≠ "thumbnail" →
      outputType ≠ "landing_hero" → outputType ≠ "landing_mobile" →
      resolveFormat outputType landingPosition = ("1:1", "FORMAT: SQUARE AD (1:1).")) := by
  refine ⟨⟨_, _, rfl⟩, fun n1 n2 n3 n4 => ?_⟩
  simp [resolveFormat, n1, n2, n3, n4]

/-- C8 witness: an unrecognized outputType resolves to the square
fallback. -/
theorem format_resolver_total_fallback_witness :
    resolveFormat "banner" "center" = ("1:1", "FORMAT: SQUARE AD (1:1).") :=
  (format_resolver_total_fallback "banner" "center").2
    (by decide) (by decide) (by decide) (by decide)

/-- C9: `refinePoster` derives the aspect ratio from the outputType alone
(its request builder does not even receive a landing position):
ad_stories and landing_mobile map to 9:16, thumbnail and landing_hero map
to 16:9, and every other value maps to 1:1; the composed refine call
carries exactly this ratio. -/
theorem refine_aspect_ratio_map :
    refineAspectRatio "ad_stories" = "9:16" ∧
    refineAspectRatio "landing_mobile" = "9:16" ∧
    refineAspectRatio "thumbnail" = "16:9" ∧
    refineAspectRatio "landing_hero" = "16:9" ∧
    (∀ outputType, outputType ≠ "ad_stories" → outputType ≠ "landing_mobile" →
      outputType ≠ "thumbnail" → outputType ≠ "landing_hero" →
      refineAspectRatio outputType = "1:1") ∧
    (∀ currentImageBase64 refinementPrompt outputType,
      (buildRefineRequest currentImageBase64 refinementPrompt outputType).aspectRatio =
        refineAspectRatio outputType) := by
  refine ⟨by decide, by decide, by decide, by decide,
    fun ot n1 n2 n3 n4 => ?_, fun a b c => rfl⟩
  simp [refineAspectRatio, n1, n2, n3, n4]

/-- C9 witness: the story format and an unlisted format (the square feed
value) at concrete inputs. -/
theorem refine_aspect_ratio_map_witness :
    refineAspectRatio "ad_stories" = "9:16" ∧ refineAspectRatio "ad_feed" = "1:1" :=
  ⟨refine_aspect_ratio_map.1,
   refine_aspect_ratio_map.2.2.2.2.1 "ad_feed" (by decide) (by decide) (by decide) (by decide)⟩

/-- C10: every artifact either client returns is a data URI declaring
MIME type image/png, whatever MIME type the backend attached to the image
part; and the refine request always labels the prior artifact
image/png. -/
theorem artifact_png_mime :
    (∀ actorFile referenceFile outputType landingPosition analysisContext preserveText
        customText creativePrompt backend s,
      generateFinalPoster actorFile referenceFile outputType landingPosition
          analysisContext preserveText customText creativePrompt backend =
        Except.ok s →
      ∃ d, s = "data:image/png;base64," ++ d) ∧
    (∀ currentImageBase64 refinementPrompt outputType backend s,
      refinePoster currentImageBase64 refinementPrompt outputType backend =
        Except.ok s →
      ∃ d, s = "data:image/png;base64," ++ d) ∧
    (∀ currentImageBase64 refinementPrompt outputType,
      (buildRefineRequest currentImageBase64 refinementPrompt outputType).parts.head? =
        some { inlineData := some { mimeType := "image/png", data := dataAfterComma currentImageBase64 }, text := none }) := by
  refine ⟨?_, ?_, fun a b c => rfl⟩
  · intro af rf ot lp ac pt ct cp backend s h
    unfold generateFinalPoster at h
    rcases hb : buildGenerateRequest af rf ot lp ac pt ct cp with e | req
    · rw [hb] at h
      exact absurd h (by simp)
    · rw [hb] at h
      exact parseGenerateResponse_ok _ _ h
  · intro img p ot backend s h
    exact parseRefineResponse_ok _ _ h

/-- C10 witness: a backend that labels its image part image/jpeg still
yields an image/png data URI. -/
theorem artifact_png_mime_witness :
    ∃ d, ("data:image/png;base64,XYZ" : String) = "data:image/png;base64," ++ d :=
  artifact_png_mime.2.1 "data:image/png;base64,AAA" "fix" "thumbnail"
    (fun _ => ⟨[⟨some ⟨some [⟨some ⟨"image/jpeg", "XYZ"⟩, none⟩]⟩⟩]⟩)
    "data:image/png;base64,XYZ" rfl

lemma demoBase_reachable : ReachableQ demoBase :=
  ReachableQ.step _ _ (ReachableQ.step _ _ (ReachableQ.step _ _ ReachableQ.init))

lemma demoGenerated_reachable : ReachableQ demoGenerated :=
  ReachableQ.step _ _ demoBase_reachable

lemma demoReady_reachable : ReachableQ demoReady :=
  ReachableQ.step _ _ demoGenerated_reachable

/-- C4 counterexample: in a real run where a generation already produced
an artifact, running another generation that fails with a backend error
leaves NO artifact: `handleGenerate` cleared the prior artifact at the
start of the attempt, so the failed generation does not leave the prior
artifact as it was. -/
theorem failed_generation_discards_artifact :
    demoGenerated.generatedImage = some "IMG1" ∧
    (eventRun demoGenerated
        (Event.generate (Except.error (GenError.backendError "boom")) false)).generatedImage =
      none := by
  exact ⟨rfl, rfl⟩

/-- C4 (amended): a failed refinement never discards the last good
artifact (the artifact is exactly what it was before the attempt), but a
failed generation leaves no artifact at all: `handleGenerate` clears the
current artifact at the start of the attempt, so after a failed
generation the artifact is `none` regardless of what was there before. -/
theorem failure_artifact_handling :
    (∀ s e, (eventRun s (Event.refine (Except.error e))).generatedImage =
      s.generatedImage) ∧
    (∀ s e studio, s.actorFile = true → s.refFile = true → s.apiKeySet = true →
      (eventRun s (Event.generate (Except.error e) studio)).generatedImage = none) := by
  constructor
  · intro s e
    by_cases hg : (s.generatedImage.isNone || jsTrim s.refinePrompt == "" || s.isRefining) = true
    · simp [eventRun, eventTrace, refineTrace, hg]
    · simp only [eventRun, eventTrace, refineTrace, if_neg hg]
      rw [List.getLastD_cons, List.getLastD_cons, List.getLastD_cons, List.getLastD_cons]
      rfl
  · intro s e studio hA hRf hK
    have hgf : ¬((!s.actorFile || !s.refFile || !s.apiKeySet) = true) := by
      simp [hA, hRf, hK]
    simp only [eventRun, eventTrace, generateTrace, if_neg hgf]
    by_cases hat : strOptTruthy s.analysisText = true
    · rw [if_pos hat,
        getLastD_append_ne_nil _ _ _ (generateFinishTrace_ne_nil _ _ _),
        generateFinishTrace_last_image]
    · rw [if_neg hat,
        getLastD_append_ne_nil _ _ _ (generateFinishTrace_ne_nil _ _ _),
        generateFinishTrace_last_image]

/-- C4 witness: against the demonstration state, a failed refinement
keeps the artifact while a failed generation ends with no artifact. -/
theorem failure_artifact_handling_witness :
    (eventRun demoGenerated
        (Event.refine (Except.error (GenError.backendError "x")))).generatedImage =
      demoGenerated.generatedImage ∧
    (eventRun demoGenerated
        (Event.generate (Except.error (GenError.backendError "x")) false)).generatedImage =
      none :=
  ⟨failure_artifact_handling.1 demoGenerated (GenError.backendError "x"),
   failure_artifact_handling.2 demoGenerated (GenError.backendError "x") false
     (by decide) (by decide) (by decide)⟩

/-- C6: in every reachable state of the App, a stage is `processing` only
when every earlier stage is `completed`; and starting a new top-level
generation (from a quiescent reachable state with the guard inputs
present) passes through the reset state, in which stages 2-5 are
`pending` and the analysis stage keeps its `completed` status exactly
when a prior analysis result exists (otherwise it too is `pending`). -/
theorem pipeline_monotonicity_and_reset :
    (∀ x, Reachable x → MonotoneSteps x.steps) ∧
    (∀ s res studio, ReachableQ s → s.actorFile = true → s.refFile = true →
      s.apiKeySet = true →
      resetStateOf s ∈ eventTrace s (Event.generate res studio) ∧
      statusAt (resetStateOf s).steps 1 = StepStatus.pending ∧
      statusAt (resetStateOf s).steps 2 = StepStatus.pending ∧
      statusAt (resetStateOf s).steps 3 = StepStatus.pending ∧
      statusAt (resetStateOf s).steps 4 = StepStatus.pending ∧
      (strOptTruthy s.analysisText = true →
        statusAt (resetStateOf s).steps 0 = StepStatus.completed) ∧
      (strOptTruthy s.analysisText = false →
        statusAt (resetStateOf s).steps 0 = StepStatus.pending)) := by
  constructor
  · exact fun x h => reachable_monotone x h
  · intro s res studio hrq hA hRf hK
    obtain ⟨⟨⟨x1, x2, x3, x4, x5, hst, h1, h2, h3, h4, h5⟩, hm, hi⟩, hana⟩ :=
      reachableQ_invQ s hrq
    have hgf : ¬((!s.actorFile || !s.refFile || !s.apiKeySet) = true) := by
      simp [hA, hRf, hK]
    by_cases hat : strOptTruthy s.analysisText = true
    · have hsteps : (resetStateOf s).steps = [x1, { x2 with status := StepStatus.pending, details := none }, { x3 with status := StepStatus.pending, details := none }, { x4 with status := StepStatus.pending, details := none }, { x5 with status := StepStatus.pending, details := none }] := by
        show resetSteps s.steps s.analysisText = _
        rw [hst]
        exact resetSteps_five_truthy x1 x2 x3 x4 x5 _ h1 h2 h3 h4 h5 hat
      refine ⟨?_, ?_, ?_, ?_, ?_, fun _ => ?_, fun hcon => ?_⟩
      · simp only [eventTrace, generateTrace, if_neg hgf]
        rw [if_pos hat]
        exact List.mem_append_left _
          (List.mem_cons_of_mem _ (List.mem_cons_of_mem _ (List.mem_cons_self _ _)))
      · rw [hsteps]; rfl
      · rw [hsteps]; rfl
      · rw [hsteps]; rfl
      · rw [hsteps]; rfl
      · rw [hsteps, statusAt_cons_zero]
        have hh := hana hat
        rw [hst] at hh
        exact hh
      · exact absurd hat (by simp [hcon])
    · have hatf : strOptTruthy s.analysisText = false := by
        revert hat
        cases strOptTruthy s.analysisText <;> simp
      have hsteps : (resetStateOf s).steps = [{ x1 with status := StepStatus.pending, details := none }, { x2 with status := StepStatus.pending, details := none }, { x3 with status := StepStatus.pending, details := none }, { x4 with status := StepStatus.pending, details := none }, { x5 with status := StepStatus.pending, details := none }] := by
        show resetSteps s.steps s.analysisText = _
        rw [hst]
        exact resetSteps_five_falsy x1 x2 x3 x4 x5 _ h1 h2 h3 h4 h5 hatf
      refine ⟨?_, ?_, ?_, ?_, ?_, fun hcon => ?_, fun _ => ?_⟩
      · simp only [eventTrace, generateTrace, if_neg hgf]
        rw [if_neg hat]
        exact List.mem_append_left _
          (List.mem_cons_of_mem _ (List.mem_cons_of_mem _ (List.mem_cons_self _ _)))
      · rw [hsteps]; rfl
      · rw [hsteps]; rfl
      · rw [hsteps]; rfl
      · rw [hsteps]; rfl
      · exact absurd hcon (by simp [hatf])
      · rw [hsteps]; rfl

/-- C6 witness: the initial state is monotone, and a generation started
from the demonstration state passes through its reset state. -/
theorem pipeline_monotonicity_and_reset_witness :
    MonotoneSteps initialState.steps ∧
    resetStateOf demoBase ∈ eventTrace demoBase (Event.generate (Except.ok "IMG") false) :=
  ⟨pipeline_monotonicity_and_reset.1 initialState (Or.inl ReachableQ.init),
   (pipeline_monotonicity_and_reset.2 demoBase (Except.ok "IMG") false demoBase_reachable
      (by decide) (by decide) (by decide)).1⟩

/-- C7: a refinement, successful or failed, leaves the records of stages
1-4 untouched: every state the refinement handler passes through, and the
state it settles in, agrees with the starting state on the first four
steps. -/
theorem refinement_frame (s : AppState) (res : Except GenError String)
    (hs : ReachableQ s) :
    (∀ x ∈ eventTrace s (Event.refine res), ∀ i, i < 4 →
      x.steps.get? i = s.steps.get? i) ∧
    (∀ i, i < 4 → (eventRun s (Event.refine res)).steps.get? i = s.steps.get? i) := by
  obtain ⟨⟨⟨x1, x2, x3, x4, x5, hst, h1, h2, h3, h4, h5⟩, _, _⟩, _⟩ := reachableQ_invQ s hs
  have hupd5a : ∀ (st : StepStatus) (det : Option String),
      updateStep [x1, x2, x3, x4, x5] "5" st det =
      [x1, x2, x3, x4, { x5 with status := st, details := det }] := by
    intro st det
    simp [updateStep, h1, h2, h3, h4, h5]
  have hupd5b : ∀ (st1 : StepStatus) (det1 : Option String) (st : StepStatus)
      (det : Option String),
      updateStep [x1, x2, x3, x4, { x5 with status := st1, details := det1 }] "5" st det =
      [x1, x2, x3, x4, { x5 with status := st, details := det }] := by
    intro st1 det1 st det
    simp [updateStep, h1, h2, h3, h4, h5]
  have hfour : ∀ (y : ProcessingStep) (i : Nat), i < 4 →
      ([x1, x2, x3, x4, y] : List ProcessingStep).get? i =
        ([x1, x2, x3, x4, x5] : List ProcessingStep).get? i := by
    intro y i hi
    interval_cases i <;> rfl
  have Hmem : ∀ x ∈ eventTrace s (Event.refine res), ∀ i, i < 4 →
      x.steps.get? i = s.steps.get? i := by
    intro x hx i hi
    by_cases hg : (s.generatedImage.isNone || jsTrim s.refinePrompt == "" || s.isRefining) = true
    · simp [eventTrace, refineTrace, hg] at hx
    · simp only [eventTrace, refineTrace, if_neg hg] at hx
      rcases res with err | url
      · simp only [List.mem_cons, List.not_mem_nil, or_false] at hx
        rcases hx with rfl | rfl | rfl | rfl
        · rfl
        · show (updateStep s.steps "5" StepStatus.processing
            (some "Applying Magic Fix...")).get? i = s.steps.get? i
          rw [hst, hupd5a]
          exact hfour _ i hi
        · show (updateStep (updateStep s.steps "5" StepStatus.processing
            (some "Applying Magic Fix...")) "5" StepStatus.error
            (some "Refinement failed. Try again.")).get? i = s.steps.get? i
          rw [hst, hupd5a, hupd5b]
          exact hfour _ i hi
        · show (updateStep (updateStep s.steps "5" StepStatus.processing
            (some "Applying Magic Fix...")) "5" StepStatus.error
            (some "Refinement failed. Try again.")).get? i = s.steps.get? i
          rw [hst, hupd5a, hupd5b]
          exact hfour _ i hi
      · simp only [List.mem_cons, List.not_mem_nil, or_false] at hx
        rcases hx with rfl | rfl | rfl | rfl | rfl | rfl
        · rfl
        · show (updateStep s.steps "5" StepStatus.processing
            (some "Applying Magic Fix...")).get? i = s.steps.get? i
          rw [hst, hupd5a]
          exact hfour _ i hi
        · show (updateStep s.steps "5" StepStatus.processing
            (some "Applying Magic Fix...")).get? i = s.steps.get? i
          rw [hst, hupd5a]
          exact hfour _ i hi
        · show (updateStep s.steps "5" StepStatus.processing
            (some "Applying Magic Fix...")).get? i = s.steps.get? i
          rw [hst, hupd5a]
          exact hfour _ i hi
        · show (updateStep (updateStep s.steps "5" StepStatus.processing
            (some "Applying Magic Fix...")) "5" StepStatus.completed
            (some "Refinement applied successfully")).get? i = s.steps.get? i
          rw [hst, hupd5a, hupd5b]
          exact hfour _ i hi
        · show (updateStep (updateStep s.steps "5" StepStatus.processing
            (some "Applying Magic Fix...")) "5" StepStatus.completed
            (some "Refinement applied successfully")).get? i = s.steps.get? i
          rw [hst, hupd5a, hupd5b]
          exact hfour _ i hi
  refine ⟨Hmem, fun i hi => ?_⟩
  by_cases hg : (s.generatedImage.isNone || jsTrim s.refinePrompt == "" || s.isRefining) = true
  · simp only [eventRun, eventTrace, refineTrace, if_pos hg]
    rfl
  · have hne : eventTrace s (Event.refine res) ≠ [] := by
      simp only [eventTrace, refineTrace, if_neg hg]
      rcases res with err | url <;> simp
    exact Hmem _ (getLastD_mem _ s hne) i hi

/-- C7 witness: a failed refinement against the demonstration state keeps
the first stage record unchanged. -/
theorem refinement_frame_witness :
    (eventRun demoReady
        (Event.refine (Except.error (GenError.backendError "e")))).steps.get? 0 =
      demoReady.steps.get? 0 :=
  (refinement_frame demoReady (Except.error (GenError.backendError "e"))
    demoReady_reachable).2 0 (by decide)

end Cinemorph
